import Mathlib

/-
  Verification of the Translate repository.

  The repository has three source files:
  * `update_mcp.py` — the Configuration Patcher: reads `~/.gemini/settings.json`,
    inserts/overwrites the `mcpServers.pearls` entry, writes `temp_settings.json`,
    with a top-level try/except around the whole body.
  * `client/src/data_gathering_crew/main.py` — the Flask HTTP handler `kickoff`
    on `POST /extract`.
  * `client/src/data_gathering_crew/crew.py` — the declarative two-step crew
    (data_extractor / link_creator agents, extract then relate tasks, sequential
    process).

  Everything below is a shallow embedding of that code: JSON documents are an
  inductive type, the Python dict mutations become association-list operations
  with Python's in-place-overwrite/append-at-end semantics, fallible steps
  return `Except`, and the file system touched by the patcher is a two-field
  record threaded explicitly.
-/

set_option autoImplicit false

namespace Translate

/-- JSON values as produced by Python's `json.load` / consumed by `json.dump`.
Objects are association lists in insertion order, matching Python dicts.
Numbers are modelled as integers; no non-integer number appears anywhere in
this repository's data. -/
inductive Json where
  | null
  | bool (b : Bool)
  | num (n : Int)
  | str (s : String)
  | arr (elts : List Json)
  | obj (entries : List (String × Json))


/-- First-match lookup in an object's entry list: Python `d[k]` / `k in d`. -/
def jlookup : List (String × Json) → String → Option Json
  | [], _ => none
  | (k', v) :: rest, k => if k' = k then some v else jlookup rest k

/-- Lookup with a default: Python `d.get(k, default)`. -/
def jlookupD (entries : List (String × Json)) (k : String) (dflt : Json) : Json :=
  (jlookup entries k).getD dflt

/-- Python dict assignment `d[k] = v`: overwrite the first entry with key `k`
in place (keeping its position), or append a new entry at the end. -/
def setKey : List (String × Json) → String → Json → List (String × Json)
  | [], k, v => [(k, v)]
  | (k', v') :: rest, k, v =>
      if k' = k then (k, v) :: rest else (k', v') :: setKey rest k v

/-- Whether a JSON value is an object (a Python dict after `json.load`). -/
def Json.isObj : Json → Bool
  | .obj _ => true
  | _ => false

/-! ### The Configuration Patcher (`update_mcp.py`) -/

/-- Exceptions that the patcher's try-block can raise. -/
inductive PyError where
  | fileNotFound      -- `open(settings_path, 'r')` on a missing file
  | jsonDecodeError   -- `json.load` on malformed content
  | typeError         -- item assignment / membership test on a non-dict
  | keyError          -- subscripting a dict at an absent key


/-- The hard-coded `pearls_config` dict from `update_mcp.py`. -/
def pearls_config : Json := .obj
  [("httpUrl", .str "https://pearls.infiniterealms.tech/mcp"),
   ("headers", .obj
     [("Authorization", .str "Bearer pearl_e4u9x83zvURFiVN3tdWCKr-wSERfGhtQ")])]

/-- The patcher's mutation on an object-rooted settings document:
`if "mcpServers" not in settings: settings["mcpServers"] = {}` followed by
`settings["mcpServers"]["pearls"] = pearls_config`. The nested assignment
reads the value at `"mcpServers"`; if that value is not a dict, Python raises
`TypeError`, and subscripting an absent key would raise `KeyError` (unreachable
here because the guard just inserted the key). -/
def patchObj (settings : List (String × Json)) :
    Except PyError (List (String × Json)) :=
  let settings1 :=
    if (jlookup settings "mcpServers").isNone
    then setKey settings "mcpServers" (.obj [])
    else settings
  match jlookup settings1 "mcpServers" with
  | some (.obj servers) =>
      .ok (setKey settings1 "mcpServers" (.obj (setKey servers "pearls" pearls_config)))
  | some _ => .error .typeError
  | none => .error .keyError

/-- The patcher's mutation on an arbitrary loaded document. When the top-level
value is not a dict, CPython raises `TypeError` in the mutation lines no matter
which non-dict type it is: `"mcpServers" not in settings` raises on
non-iterables (`None`, booleans, numbers), and on strings/lists the membership
test passes but the item assignment `settings["mcpServers"] = {}` raises. -/
def patchJson : Json → Except PyError Json
  | .obj entries => (patchObj entries).map .obj
  | _ => .error .typeError

/-- Outcome of `open(settings_path, 'r')` + `json.load(f)` on the source file. -/
inductive ReadResult where
  | missing              -- the file does not exist: FileNotFoundError
  | malformed            -- the file exists but is not valid JSON
  | ok (doc : Json)      -- the parsed document


/-- The file-system state the patcher can observe or change: the source
settings file at `~/.gemini/settings.json` and the output file
`./temp_settings.json` (`none` when absent; the stored value is the document
that `json.dump(settings, f, indent=2)` serialized into it). -/
structure FS where
  settings : ReadResult
  temp : Option Json


/-- What the script prints before exiting. -/
inductive Printed where
  | success                    -- "Successfully updated settings configuration."
  | errorReport (e : PyError)  -- "Error updating settings: " followed by the exception


/-- Result of one run of `update_mcp.py`: the final file-system state, the
line printed, and whether an exception escaped the process. -/
structure RunResult where
  fs : FS
  printed : Printed
  raised : Bool


/-- The body of the patcher's `try` block: read and parse the settings file,
apply the mutation, write the merged document to `temp_settings.json`. Returns
the file system as left by the body together with the body's outcome; every
failure happens before the output file is opened, so on failure the file
system is returned untouched. -/
def tryBody (fs : FS) : FS × Except PyError Unit :=
  match fs.settings with
  | .missing => (fs, .error .fileNotFound)
  | .malformed => (fs, .error .jsonDecodeError)
  | .ok doc =>
      match patchJson doc with
      | .error e => (fs, .error e)
      | .ok merged => ({ fs with temp := some merged }, .ok ())

/-- One full run of `update_mcp.py`: the `try` block, with the catch-all
`except Exception as e: print(...)` — a success prints the success line, any
exception is caught and reported, and in neither case does an exception escape
the process. -/
def runScript (fs : FS) : RunResult :=
  match tryBody fs with
  | (fs', .ok _) => ⟨fs', .success, false⟩
  | (fs', .error e) => ⟨fs', .errorReport e, false⟩

/-! ### The HTTP handler (`main.py`, route `POST /extract`) -/

/-- Python truthiness (`bool(x)`) of a value obtained from decoded JSON:
`None`, `False`, `0`, `""`, `[]` and `{}` are falsy, everything else truthy. -/
def truthy : Json → Bool
  | .null => false
  | .bool b => b
  | .num n => n != 0
  | .str s => s != ""
  | .arr elts => !elts.isEmpty
  | .obj entries => !entries.isEmpty

/-- An exception escaping the handler: either the `AttributeError` raised by
`data.get(...)` when the decoded body is not a dict, or whatever exception the
pipeline invocation `DataGatheringCrew().crew().kickoff(...)` raised, carried
through unchanged. -/
inductive HExn (E : Type) where
  | attributeError
  | fromPipeline (e : E)

/-- How a request to `/extract` is answered: a normal HTTP response with a
status code and a JSON body, or an exception left to the hosting framework. -/
inductive Outcome (E : Type) where
  | response (status : Nat) (body : Json)
  | exn (e : HExn E)

/-- The observable behaviour of one call of the handler: the inputs the
pipeline was invoked with, in order, and how the request was answered. -/
structure HandlerResult (E : Type) where
  calls : List Json
  outcome : Outcome E

/-- The `kickoff` handler of `main.py`. `data` is the value decoded from the
request body by `request.get_json()`; `pipeline` is the crew invocation
`DataGatheringCrew().crew().kickoff(inputs=\x7b"text": t\x7d)`, modelled as a
function that either returns a (JSON-serializable) result or raises `e : E`.
On a dict body the handler does `data.get("text", None)`; a falsy value is
answered `jsonify(\x7b"message": "Text not provided"\x7d), 400` without
touching the pipeline, otherwise the pipeline runs once and its result is
answered as `jsonify(\x7b"result": result\x7d)` with Flask's default status
200. A non-dict body has no `.get` attribute, so the handler raises. -/
def kickoff {E : Type} (pipeline : Json → Except E Json) (data : Json) :
    HandlerResult E :=
  match data with
  | .obj entries =>
      let text_to_process := jlookupD entries "text" Json.null
      if !truthy text_to_process then
        ⟨[], .response 400 (.obj [("message", .str "Text not provided")])⟩
      else
        match pipeline text_to_process with
        | .ok result => ⟨[text_to_process], .response 200 (.obj [("result", result)])⟩
        | .error e => ⟨[text_to_process], .exn (.fromPipeline e)⟩
  | _ => ⟨[], .exn .attributeError⟩

/-! ### The crew declaration (`crew.py`) -/

/-- An agent declaration: the key of its config in `agents.yaml` and the
`verbose` flag. -/
structure Agent where
  config : String
  verbose : Bool

/-- A task declaration: the key of its config in `tasks.yaml` and the names of
the tasks whose outputs form its context. -/
structure Task where
  config : String
  context : List String

/-- The crewai execution process selector. -/
inductive Process where
  | sequential
  | hierarchical

/-- A crew declaration: agents, tasks in declaration order, process, verbose. -/
structure Crew where
  agents : List Agent
  tasks : List Task
  process : Process
  verbose : Bool

/-- `DataGatheringCrew.data_extractor` from `crew.py`. -/
def data_extractor : Agent := ⟨"data_extractor", true⟩

/-- `DataGatheringCrew.link_creator` from `crew.py`. -/
def link_creator : Agent := ⟨"link_creator", true⟩

/-- `DataGatheringCrew.extract_lineage_details_task` from `crew.py`: no
declared context. -/
def extract_lineage_details_task : Task := ⟨"extract_lineage_details_task", []⟩

/-- `DataGatheringCrew.generate_relationships_task` from `crew.py`: its
context is the extraction task. -/
def generate_relationships_task : Task :=
  ⟨"generate_relationships_task", ["extract_lineage_details_task"]⟩

/-- `DataGatheringCrew.crew` from `crew.py`: both agents, the two tasks with
extraction first, `Process.sequential`. -/
def dataGatheringCrew : Crew :=
  ⟨[data_extractor, link_creator],
   [extract_lineage_details_task, generate_relationships_task],
   .sequential, true⟩

/-- One executed task in a run of the crew: which task ran, the context
outputs it received as input, and the output it produced. A run is a list of
these in execution order. -/
structure TraceEntry where
  task : String
  contextInputs : List Json
  output : Json

/-- The output recorded for a named task in a trace, if it has run. -/
def findOutput : List TraceEntry → String → Option Json
  | [], _ => none
  | entry :: rest, n =>
      if entry.task = n then some entry.output else findOutput rest n

/-- Modelled from the spec: the external orchestration engine's sequential
process, which is not part of this repository. Per the spec's contract, the
engine runs the declared tasks strictly one after another in declaration
order, and each task receives as input the outputs of the tasks named in its
declared context; `step` stands for what one opaque agent invocation produces
given the task and its context inputs. The returned trace lists the executed
tasks in execution order. -/
def runSequential (step : String → List Json → Json) :
    List Task → List TraceEntry → List TraceEntry
  | [], trace => trace
  | t :: rest, trace =>
      let ctx := t.context.filterMap (fun n => findOutput trace n)
      runSequential step rest (trace ++ [⟨t.config, ctx, step t.config ctx⟩])

/-- The settings document of the spec's Scenario D. -/
def scenarioD_settings : Json :=
  .obj [("mcpServers", .obj [("other", .obj [("httpUrl", .str "x")])])]

/-- The merged document the spec's Scenario D expects in
`temp_settings.json`: the original document plus the `pearls` entry under
`mcpServers`. -/
def scenarioD_merged : Json :=
  .obj [("mcpServers", .obj
    [("other", .obj [("httpUrl", .str "x")]),
     ("pearls", pearls_config)])]

/-! ### Association-list lemmas -/

theorem jlookup_setKey_self (l : List (String × Json)) (k : String) (v : Json) :
    jlookup (setKey l k v) k = some v := by
  induction l with
  | nil => simp [setKey, jlookup]
  | cons hd tl ih =>
      obtain ⟨k', v'⟩ := hd
      by_cases h : k' = k
      · simp [setKey, h, jlookup]
      · simp [setKey, h, jlookup, ih]

theorem jlookup_setKey_ne (l : List (String × Json)) (k k' : String) (v : Json)
    (h : k' ≠ k) : jlookup (setKey l k v) k' = jlookup l k' := by
  have h' : k ≠ k' := Ne.symm h
  induction l with
  | nil => simp [setKey, jlookup, h']
  | cons hd tl ih =>
      obtain ⟨k₀, v₀⟩ := hd
      by_cases h₀ : k₀ = k
      · subst h₀
        simp [setKey, jlookup, h']
      · simp [setKey, h₀, jlookup, ih]

theorem setKey_of_jlookup_eq (l : List (String × Json)) (k : String) (v : Json)
    (h : jlookup l k = some v) : setKey l k v = l := by
  induction l with
  | nil => simp [jlookup] at h
  | cons hd tl ih =>
      obtain ⟨k₀, v₀⟩ := hd
      by_cases h₀ : k₀ = k
      · subst h₀
        simp [jlookup] at h
        simp [setKey, h]
      · simp [jlookup, h₀] at h
        simp [setKey, h₀, ih h]

/-- Closed-form characterization of the patcher's mutation, by the shape of
the entry at `"mcpServers"` in the source document. -/
theorem patchObj_eq (settings : List (String × Json)) :
    patchObj settings =
      match jlookup settings "mcpServers" with
      | none =>
          .ok (setKey (setKey settings "mcpServers" (.obj []))
                 "mcpServers" (.obj (setKey [] "pearls" pearls_config)))
      | some (.obj servers) =>
          .ok (setKey settings "mcpServers"
                 (.obj (setKey servers "pearls" pearls_config)))
      | some _ => .error .typeError := by
  unfold patchObj
  cases hmc : jlookup settings "mcpServers" with
  | none => simp [hmc, jlookup_setKey_self]
  | some v => cases v <;> simp [hmc]

/-! ### Claim theorems -/

/-- C1: for every request whose decoded JSON body is an object in which the
`"text"` entry is absent, or present with a falsy value (null, empty string,
and every other Python-falsy value), the `/extract` handler answers with
status 400 and body exactly `\x7b"message": "Text not provided"\x7d`, making
no pipeline invocation. -/
theorem extract_missing_text_returns_400 {E : Type}
    (pipeline : Json → Except E Json) (entries : List (String × Json))
    (h : truthy (jlookupD entries "text" Json.null) = false) :
    kickoff pipeline (.obj entries) =
      ⟨[], .response 400 (.obj [("message", .str "Text not provided")])⟩ := by
  simp [kickoff, h]

theorem extract_missing_text_returns_400_witness :
    truthy (jlookupD [] "text" Json.null) = false ∧
    kickoff (E := Unit) (fun _ => .ok Json.null) (.obj []) =
      ⟨[], .response 400 (.obj [("message", .str "Text not provided")])⟩ :=
  ⟨rfl, extract_missing_text_returns_400 (fun _ => .ok Json.null) [] rfl⟩

/-- C2: for every request whose decoded JSON body is an object with a truthy
`"text"` entry, the `/extract` handler invokes the pipeline exactly once,
passing that text as the input, and (when the pipeline returns a value)
answers with status 200 and body `\x7b"result": <pipeline output>\x7d`. -/
theorem extract_valid_text_invokes_pipeline_once {E : Type}
    (pipeline : Json → Except E Json) (entries : List (String × Json))
    (r : Json)
    (htr : truthy (jlookupD entries "text" Json.null) = true)
    (hp : pipeline (jlookupD entries "text" Json.null) = .ok r) :
    kickoff pipeline (.obj entries) =
      ⟨[jlookupD entries "text" Json.null],
       .response 200 (.obj [("result", r)])⟩ := by
  simp [kickoff, htr, hp]

theorem extract_valid_text_invokes_pipeline_once_witness :
    truthy (jlookupD [("text", .str "hello")] "text" Json.null) = true ∧
    (fun t => (.ok t : Except Unit Json)) (jlookupD [("text", .str "hello")] "text" Json.null) = .ok (.str "hello") ∧
    kickoff (E := Unit) (fun t => .ok t) (.obj [("text", .str "hello")]) =
      ⟨[jlookupD [("text", .str "hello")] "text" Json.null],
       .response 200 (.obj [("result", .str "hello")])⟩ :=
  ⟨rfl, rfl,
   extract_valid_text_invokes_pipeline_once (fun t => .ok t)
     [("text", .str "hello")] (.str "hello") rfl rfl⟩

/-- C8: for every request whose decoded body is an object with a truthy
`"text"` entry, if the pipeline invocation raises, the `/extract` handler
does not catch the exception: it escapes the handler unchanged, with exactly
one pipeline invocation and no retry, and no response is produced locally. -/
theorem extract_pipeline_exception_propagates {E : Type}
    (pipeline : Json → Except E Json) (entries : List (String × Json))
    (e : E)
    (htr : truthy (jlookupD entries "text" Json.null) = true)
    (hp : pipeline (jlookupD entries "text" Json.null) = .error e) :
    kickoff pipeline (.obj entries) =
      ⟨[jlookupD entries "text" Json.null], .exn (.fromPipeline e)⟩ := by
  simp [kickoff, htr, hp]

theorem extract_pipeline_exception_propagates_witness :
    truthy (jlookupD [("text", .str "boom")] "text" Json.null) = true ∧
    (fun _ => (.error 42 : Except Nat Json)) (jlookupD [("text", .str "boom")] "text" Json.null) = .error 42 ∧
    kickoff (E := Nat) (fun _ => .error 42) (.obj [("text", .str "boom")]) =
      ⟨[jlookupD [("text", .str "boom")] "text" Json.null],
       .exn (.fromPipeline 42)⟩ :=
  ⟨rfl, rfl,
   extract_pipeline_exception_propagates (fun _ => .error 42)
     [("text", .str "boom")] 42 rfl rfl⟩

/-- C9: for decoded bodies that are valid JSON but not objects — an array, a
string, a number — the `/extract` handler raises an `AttributeError` at
`data.get`, so the request is answered with neither the 400 validation
response nor the 200 success response, and the pipeline is never invoked:
the validation branch guards only object-shaped bodies. -/
theorem extract_non_object_body_raises {E : Type}
    (pipeline : Json → Except E Json) :
    kickoff pipeline (.arr [.str "a"]) = ⟨[], .exn .attributeError⟩ ∧
    kickoff pipeline (.str "plain") = ⟨[], .exn .attributeError⟩ ∧
    kickoff pipeline (.num 3) = ⟨[], .exn .attributeError⟩ :=
  ⟨rfl, rfl, rfl⟩

/-- C6: in the declared crew, the process is sequential and, under the
engine's sequential execution, the run is exactly: first the extraction task
with empty context input, then the relationship task receiving precisely the
extraction task's output as its context input — extract strictly before
relate, never parallel, never reversed. -/
theorem relate_runs_after_extract_with_its_output
    (step : String → List Json → Json) :
    dataGatheringCrew.process = .sequential ∧
    runSequential step dataGatheringCrew.tasks [] =
      [⟨"extract_lineage_details_task", [],
        step "extract_lineage_details_task" []⟩,
       ⟨"generate_relationships_task",
        [step "extract_lineage_details_task" []],
        step "generate_relationships_task"
          [step "extract_lineage_details_task" []]⟩] :=
  ⟨rfl, rfl⟩

/-- If a document's `"mcpServers"` entry is already a merged server table
(its `"pearls"` entry is the hard-coded config, placed there by `setKey`),
the patcher's mutation returns the document unchanged. -/
theorem patchObj_fixp (l servers : List (String × Json))
    (h : jlookup l "mcpServers" =
      some (.obj (setKey servers "pearls" pearls_config))) :
    patchObj l = .ok l := by
  have h1 : setKey (setKey servers "pearls" pearls_config) "pearls" pearls_config
      = setKey servers "pearls" pearls_config :=
    setKey_of_jlookup_eq _ _ _ (jlookup_setKey_self servers "pearls" pearls_config)
  have h2 : setKey l "mcpServers" (.obj (setKey servers "pearls" pearls_config)) = l :=
    setKey_of_jlookup_eq _ _ _ h
  rw [patchObj_eq, h]
  simp [h1, h2]

/-- On a failing run, the body of the `try` block leaves the file system
untouched: every exception is raised before the output file is opened. -/
theorem tryBody_error_eq (fs fs' : FS) (e : PyError)
    (h : tryBody fs = (fs', .error e)) : fs' = fs := by
  obtain ⟨s, t⟩ := fs
  cases s with
  | missing =>
      simp [tryBody] at h
      exact h.1.symm
  | malformed =>
      simp [tryBody] at h
      exact h.1.symm
  | ok doc =>
      cases hp : patchJson doc with
      | error e' =>
          simp [tryBody, hp] at h
          exact h.1.symm
      | ok merged => simp [tryBody, hp] at h

/-- C3: on the spec's Scenario D settings file, the patcher succeeds and
writes to `temp_settings.json` exactly the original document plus the
`mcpServers.pearls` entry, whatever the output file held before, and the
source settings file is left unmodified. -/
theorem patcher_scenarioD_merges_pearls (t : Option Json) :
    runScript ⟨.ok scenarioD_settings, t⟩ =
      ⟨⟨.ok scenarioD_settings, some scenarioD_merged⟩, .success, false⟩ := rfl

/-- C4: whenever the patcher's mutation succeeds, it only touches the
`mcpServers.pearls` entry: every other top-level key is unchanged; the
`mcpServers` collection is created empty when absent and taken as found
otherwise; under it, `pearls` is set to the hard-coded config and every
other server entry is unchanged. -/
theorem patch_touches_only_pearls (settings merged : List (String × Json))
    (h : patchObj settings = .ok merged) :
    (∀ k, k ≠ "mcpServers" → jlookup merged k = jlookup settings k) ∧
    ∃ servers,
      (jlookup settings "mcpServers" = none ∧ servers = [] ∨
        jlookup settings "mcpServers" = some (.obj servers)) ∧
      jlookup merged "mcpServers" =
        some (.obj (setKey servers "pearls" pearls_config)) ∧
      jlookup (setKey servers "pearls" pearls_config) "pearls" =
        some pearls_config ∧
      ∀ k, k ≠ "pearls" →
        jlookup (setKey servers "pearls" pearls_config) k = jlookup servers k := by
  rw [patchObj_eq] at h
  cases hmc : jlookup settings "mcpServers" with
  | none =>
      rw [hmc] at h
      simp only [Except.ok.injEq] at h
      subst h
      refine ⟨?_, [], Or.inl ⟨rfl, rfl⟩, jlookup_setKey_self _ _ _,
        jlookup_setKey_self _ _ _, ?_⟩
      · intro k hk
        rw [jlookup_setKey_ne _ _ _ _ hk, jlookup_setKey_ne _ _ _ _ hk]
      · intro k hk
        rw [jlookup_setKey_ne _ _ _ _ hk]
  | some v =>
      rw [hmc] at h
      cases v with
      | obj servers =>
          simp only [Except.ok.injEq] at h
          subst h
          refine ⟨?_, servers, Or.inr rfl, jlookup_setKey_self _ _ _,
            jlookup_setKey_self _ _ _, ?_⟩
          · intro k hk
            rw [jlookup_setKey_ne _ _ _ _ hk]
          · intro k hk
            rw [jlookup_setKey_ne _ _ _ _ hk]
      | null => simp at h
      | bool b => simp at h
      | num n => simp at h
      | str s => simp at h
      | arr elts => simp at h

theorem patch_touches_only_pearls_witness :
    patchObj [] = .ok [("mcpServers", .obj [("pearls", pearls_config)])] ∧
    ((∀ k, k ≠ "mcpServers" →
        jlookup [("mcpServers", .obj [("pearls", pearls_config)])] k = jlookup [] k) ∧
      ∃ servers,
        (jlookup [] "mcpServers" = none ∧ servers = [] ∨
          jlookup [] "mcpServers" = some (.obj servers)) ∧
        jlookup [("mcpServers", .obj [("pearls", pearls_config)])] "mcpServers" =
          some (.obj (setKey servers "pearls" pearls_config)) ∧
        jlookup (setKey servers "pearls" pearls_config) "pearls" =
          some pearls_config ∧
        ∀ k, k ≠ "pearls" →
          jlookup (setKey servers "pearls" pearls_config) k = jlookup servers k) :=
  ⟨rfl, patch_touches_only_pearls [] _ rfl⟩

/-- C5: the patcher's merge is idempotent. If a run merged `doc` into
`merged`, then the mutation maps `merged` to itself — the `pearls` key is
overwritten, not appended — and a further run of the script against a source
holding `merged` writes that same `merged` to `temp_settings.json`. -/
theorem patch_idempotent (doc merged : Json) (t : Option Json)
    (h : patchJson doc = .ok merged) :
    patchJson merged = .ok merged ∧
    runScript ⟨.ok merged, t⟩ =
      ⟨⟨.ok merged, some merged⟩, .success, false⟩ := by
  cases doc with
  | null => simp [patchJson] at h
  | bool b => simp [patchJson] at h
  | num n => simp [patchJson] at h
  | str s => simp [patchJson] at h
  | arr elts => simp [patchJson] at h
  | obj entries =>
      simp only [patchJson] at h
      cases hp : patchObj entries with
      | error e => rw [hp] at h; simp [Except.map] at h
      | ok m =>
          rw [hp] at h
          simp only [Except.map, Except.ok.injEq] at h
          subst h
          have hm : patchObj m = .ok m := by
            rw [patchObj_eq] at hp
            cases hmc : jlookup entries "mcpServers" with
            | none =>
                rw [hmc] at hp
                simp only [Except.ok.injEq] at hp
                exact patchObj_fixp m [] (hp ▸ jlookup_setKey_self _ _ _)
            | some v =>
                rw [hmc] at hp
                cases v with
                | obj servers =>
                    simp only [Except.ok.injEq] at hp
                    exact patchObj_fixp m servers (hp ▸ jlookup_setKey_self _ _ _)
                | null => simp at hp
                | bool b => simp at hp
                | num n => simp at hp
                | str s => simp at hp
                | arr elts => simp at hp
          constructor
          · simp [patchJson, hm, Except.map]
          · simp [runScript, tryBody, patchJson, hm, Except.map]

theorem patch_idempotent_witness :
    patchJson (.obj []) =
      .ok (.obj [("mcpServers", .obj [("pearls", pearls_config)])]) ∧
    (patchJson (.obj [("mcpServers", .obj [("pearls", pearls_config)])]) =
        .ok (.obj [("mcpServers", .obj [("pearls", pearls_config)])]) ∧
      runScript ⟨.ok (.obj [("mcpServers", .obj [("pearls", pearls_config)])]), none⟩ =
        ⟨⟨.ok (.obj [("mcpServers", .obj [("pearls", pearls_config)])]),
          some (.obj [("mcpServers", .obj [("pearls", pearls_config)])])⟩,
         .success, false⟩) :=
  ⟨rfl, patch_idempotent (.obj []) _ none rfl⟩

/-- C7: every error raised inside the patcher's `try` block — missing source
file, malformed JSON, the mutation's `TypeError` — is caught at the top
level and reported as a printed message; the file system is exactly as
before the run (in particular no partial write of the output file), there is
no retry, and no exception escapes the process. -/
theorem script_catches_all_errors (fs fs' : FS) (e : PyError)
    (h : tryBody fs = (fs', .error e)) :
    runScript fs = ⟨fs, .errorReport e, false⟩ := by
  have hfs := tryBody_error_eq fs fs' e h
  subst hfs
  simp [runScript, h]

theorem script_catches_all_errors_witness :
    tryBody ⟨.missing, none⟩ = (⟨.missing, none⟩, .error .fileNotFound) ∧
    runScript ⟨.missing, none⟩ =
      ⟨⟨.missing, none⟩, .errorReport .fileNotFound, false⟩ :=
  ⟨rfl, script_catches_all_errors ⟨.missing, none⟩ ⟨.missing, none⟩ .fileNotFound rfl⟩

/-- C10: when the source document's top-level `mcpServers` value exists but
is not a mapping, the patcher raises a `TypeError` during the `pearls`
assignment, before ever opening the output file; the top-level handler
catches it, `temp_settings.json` keeps whatever content it had, and the run
changes nothing on the file system. -/
theorem patcher_non_mapping_mcpServers_raises (entries : List (String × Json))
    (v : Json) (t : Option Json)
    (hv : jlookup entries "mcpServers" = some v)
    (hno : v.isObj = false) :
    runScript ⟨.ok (.obj entries), t⟩ =
      ⟨⟨.ok (.obj entries), t⟩, .errorReport .typeError, false⟩ := by
  have hp : patchObj entries = .error .typeError := by
    rw [patchObj_eq, hv]
    cases v <;> simp_all [Json.isObj]
  simp [runScript, tryBody, patchJson, hp, Except.map]

theorem patcher_non_mapping_mcpServers_raises_witness :
    jlookup [("mcpServers", .str "not a dict")] "mcpServers" =
      some (.str "not a dict") ∧
    Json.isObj (.str "not a dict") = false ∧
    runScript ⟨.ok (.obj [("mcpServers", .str "not a dict")]), none⟩ =
      ⟨⟨.ok (.obj [("mcpServers", .str "not a dict")]), none⟩,
       .errorReport .typeError, false⟩ :=
  ⟨rfl, rfl,
   patcher_non_mapping_mcpServers_raises [("mcpServers", .str "not a dict")]
     (.str "not a dict") none rfl rfl⟩

end Translate
